import Mathlib

/-!
Verification of the LLM load-testing core (`load-test-llm.py`) against its
natural-language specification.

The Python source is shallowly embedded.  Wall-clock time is modelled with
rationals.  The network is modelled by an environment function
`env : Nat → Attempt` giving, for each attempt index of one logical request,
what the endpoint does on that attempt (an HTTP response with a status code,
a timeout, or a transport-level exception) and how long the attempt takes.
`send_llm_request` is translated line by line from the retry loop
(`for retry in range(self.config.max_retries + 1)`), including its gauge
updates on `self.active_requests` and its `asyncio.sleep` backoff calls;
the sleeps performed are collected in a list so that backoff behaviour is
observable.  The loop runs at most `max_retries + 1` iterations, which the
embedding realises by structural recursion on a fuel argument initialised to
`max_retries + 1`; the fuel-exhausted branch is unreachable from the
entry point (its marker status `"unreachable"` is ruled out by the theorems).

The Reporter (`print_results`) statistics are embedded as `computeAggregate`,
the percentile rule as `percentileAt`, the user-loop target-token computation
(`simulate_user`) as `target_tokens`, and the health-monitor sampling loop
(`endpoint_monitor`) as `endpoint_monitor_samples`.
-/

namespace LoadTest

/-- The `TestConfig` dataclass (load-test-llm.py, lines 18-28). -/
structure TestConfig where
  endpoint : String := "https://litellm-prod.apps.maas.redhatworkshops.io"
  api_key : String := "sk-7j03l3X2oAB09Ee0FeYMZA"
  model_name : String := "llama-scout-17b"
  concurrent_users : Nat := 60
  test_duration_seconds : Nat := 300
  max_context_tokens : Nat := 6000
  request_timeout : Nat := 60
  max_retries : Nat := 2
  verify_ssl : Bool := false

/-- The `RequestResult` dataclass (lines 30-42).  Optional fields keep the
Python `None` defaults as `Option`. -/
structure RequestResult where
  user_id : Nat
  request_type : String
  context_length : Nat
  status : String
  response_time : ℚ
  tokens_sent : Nat
  tokens_received : Nat
  response_content : Option String := none
  error : Option String := none
  timestamp : ℚ := 0
  retry_count : Nat := 0
deriving DecidableEq

/-- `estimate_tokens` (lines 176-178): `len(text) // 4`. -/
def estimate_tokens (text : String) : Nat :=
  text.length / 4

/-- What the endpoint does on one attempt: an HTTP response (status code,
`usage.completion_tokens`, `choices[0].message.content`, raw body text used
for error messages), a timeout (`asyncio.TimeoutError`), or any other
transport exception with its message. -/
inductive AttemptResult where
  | http (status : Nat) (completionTokens : Nat) (content : String) (bodyText : String)
  | timeout
  | exc (msg : String)
deriving DecidableEq

/-- One attempt as seen by the client: its result and how long it took
(the value of `time.time() - start_time` when the branch is reached). -/
structure Attempt where
  result : AttemptResult
  duration : ℚ

/-- The five terminal states the specification names for a logical request.
Each corresponds to exactly one `return` site of `send_llm_request`. -/
inductive TerminalState where
  | success
  | client_error
  | server_error_exhausted
  | timeout_exhausted
  | transport_error_exhausted
deriving DecidableEq

/-- The `status` string the code stores at each terminal return site:
`"success"` at line 264, `"error"` at lines 283, 303 and 342, and
`"timeout"` at line 323. -/
def statusString : TerminalState → String
  | .success => "success"
  | .client_error => "error"
  | .server_error_exhausted => "error"
  | .timeout_exhausted => "timeout"
  | .transport_error_exhausted => "error"

/-- The observable effects of one call to `send_llm_request`: the returned
`RequestResult`, which return site produced it, the backoff sleeps performed
(in order), the net change to the shared `self.active_requests` gauge, and
the clock value at return. -/
structure ExecOutcome where
  result : RequestResult
  terminal : TerminalState
  sleeps : List ℚ
  gaugeDelta : ℤ
  endTime : ℚ

/-- The retry loop of `send_llm_request` (lines 210-349), one recursive step
per loop iteration.  `retry` is the Python loop variable, `now` the current
clock, `sleeps` the backoff delays performed so far, `gauge` the net change
to `self.active_requests` so far.  `fuel` bounds the number of remaining
iterations; called with `fuel = max_retries + 1 - retry` it never runs out
(the Python loop always returns within its range). -/
def sendAttempts (cfg : TestConfig) (env : Nat → Attempt) (user_id : Nat)
    (prompt : String) (request_type : String) (context_length : Nat) :
    Nat → Nat → ℚ → List ℚ → ℤ → ExecOutcome
  | 0, retry, now, sleeps, gauge =>
    { result :=
        { user_id := user_id, request_type := request_type,
          context_length := context_length, status := "unreachable",
          response_time := 0, tokens_sent := 0, tokens_received := 0,
          response_content := none, error := none, timestamp := now,
          retry_count := retry },
      terminal := .success, sleeps := sleeps, gaugeDelta := gauge,
      endTime := now }
  | fuel + 1, retry, now, sleeps, gauge =>
    match (env retry).result with
    | .http status tokens content body =>
      let response_time := (env retry).duration
      let t1 := now + (env retry).duration
      if status = 200 then
        { result :=
            { user_id := user_id, request_type := request_type,
              context_length := context_length, status := "success",
              response_time := response_time,
              tokens_sent := estimate_tokens prompt,
              tokens_received := tokens,
              response_content := some content, error := none,
              timestamp := t1, retry_count := retry },
          terminal := .success, sleeps := sleeps,
          gaugeDelta := gauge + 1 - 1, endTime := t1 }
      else
        let error_msg := "HTTP " ++ toString status ++ ": " ++ body.take 200
        if 400 ≤ status ∧ status < 500 ∧ retry = 0 then
          { result :=
              { user_id := user_id, request_type := request_type,
                context_length := context_length, status := "error",
                response_time := response_time,
                tokens_sent := estimate_tokens prompt, tokens_received := 0,
                response_content := none, error := some error_msg,
                timestamp := t1, retry_count := retry },
            terminal := .client_error, sleeps := sleeps,
            gaugeDelta := gauge + 1 - 1 - 1, endTime := t1 }
        else if retry < cfg.max_retries then
          sendAttempts cfg env user_id prompt request_type context_length
            fuel (retry + 1) (t1 + 2 ^ retry)
            (sleeps ++ [(2 : ℚ) ^ retry]) (gauge + 1 - 1)
        else
          { result :=
              { user_id := user_id, request_type := request_type,
                context_length := context_length, status := "error",
                response_time := response_time,
                tokens_sent := estimate_tokens prompt, tokens_received := 0,
                response_content := none, error := some error_msg,
                timestamp := t1, retry_count := retry },
            terminal := .server_error_exhausted, sleeps := sleeps,
            gaugeDelta := gauge + 1 - 1 - 1, endTime := t1 }
    | .timeout =>
      let t1 := now + (env retry).duration
      if retry < cfg.max_retries then
        sendAttempts cfg env user_id prompt request_type context_length
          fuel (retry + 1) (t1 + 1) (sleeps ++ [(1 : ℚ)]) (gauge + 1 - 1)
      else
        { result :=
            { user_id := user_id, request_type := request_type,
              context_length := context_length, status := "timeout",
              response_time := (env retry).duration,
              tokens_sent := estimate_tokens prompt, tokens_received := 0,
              response_content := none, error := some "Request timeout",
              timestamp := t1, retry_count := retry },
          terminal := .timeout_exhausted, sleeps := sleeps,
          gaugeDelta := gauge + 1 - 1, endTime := t1 }
    | .exc msg =>
      let t1 := now + (env retry).duration
      if retry < cfg.max_retries then
        sendAttempts cfg env user_id prompt request_type context_length
          fuel (retry + 1) (t1 + 1) (sleeps ++ [(1 : ℚ)]) (gauge + 1 - 1)
      else
        { result :=
            { user_id := user_id, request_type := request_type,
              context_length := context_length, status := "error",
              response_time := (env retry).duration,
              tokens_sent := estimate_tokens prompt, tokens_received := 0,
              response_content := none, error := some (msg.take 200),
              timestamp := t1, retry_count := retry },
          terminal := .transport_error_exhausted, sleeps := sleeps,
          gaugeDelta := gauge + 1 - 1, endTime := t1 }

/-- One call of `send_llm_request`: the Python loop entered at `retry = 0`
with empty sleep history and a zero gauge delta, at clock `t0`. -/
def send_llm_request (cfg : TestConfig) (env : Nat → Attempt) (user_id : Nat)
    (prompt : String) (request_type : String) (context_length : Nat)
    (t0 : ℚ) : ExecOutcome :=
  sendAttempts cfg env user_id prompt request_type context_length
    (cfg.max_retries + 1) 0 t0 [] 0

/-- An attempt result the retry policy treats as a transient server-side
failure in the sense of the spec: an HTTP 5xx response. -/
def isServerError : AttemptResult → Bool
  | .http status _ _ _ => 500 ≤ status && status < 600
  | _ => false

/-- An attempt result handled by the fixed-backoff paths: a timeout or any
other transport exception. -/
def isTransient : AttemptResult → Bool
  | .timeout => true
  | .exc _ => true
  | .http _ _ _ _ => false

/-- A retryable cause in the sense of the spec: timeout, transport failure,
or HTTP 5xx. -/
def retryableCause : AttemptResult → Bool
  | .http status _ _ _ => 500 ≤ status
  | .timeout => true
  | .exc _ => true

/-- An HTTP 200 response (the success test at line 242). -/
def isHttp200 : AttemptResult → Bool
  | .http status _ _ _ => status = 200
  | _ => false

/-- Endpoint that always answers HTTP 200 in one time unit. -/
def envOk : Nat → Attempt := fun _ => ⟨.http 200 5 "hello" "", 1⟩

/-- Endpoint that always answers HTTP 404 in one time unit. -/
def envClient : Nat → Attempt := fun _ => ⟨.http 404 0 "" "nope", 1⟩

/-- Endpoint that always raises `asyncio.TimeoutError`, after 60 time units. -/
def envTimeout : Nat → Attempt := fun _ => ⟨.timeout, 60⟩

/-- Endpoint that always answers HTTP 500 in one time unit. -/
def envServer : Nat → Attempt := fun _ => ⟨.http 500 0 "" "boom", 1⟩

/-- Endpoint that answers HTTP 500, then HTTP 404, then HTTP 200. -/
def envFlaky : Nat → Attempt
  | 0 => ⟨.http 500 0 "" "boom", 1⟩
  | 1 => ⟨.http 404 0 "" "nope", 1⟩
  | _ => ⟨.http 200 5 "hello" "", 1⟩

/-- Endpoint that answers HTTP 500 twice, then HTTP 200. -/
def envTwo500 : Nat → Attempt
  | 0 => ⟨.http 500 0 "" "boom", 1⟩
  | 1 => ⟨.http 500 0 "" "boom", 1⟩
  | _ => ⟨.http 200 5 "hello" "", 1⟩

/-- The sort the Reporter applies before indexing percentiles
(Python's ascending `sorted(response_times)`). -/
def sortAsc (l : List ℚ) : List ℚ :=
  List.insertionSort (· ≤ ·) l

/-- The percentile rule at lines 553-554:
`sorted(response_times)[int(len(response_times) * p)]`, i.e. the element of
the ascending-sorted sequence at 0-based index `floor(n * p)`; `none` when
the index falls outside the list. -/
def percentileAt (times : List ℚ) (p : ℚ) : Option ℚ :=
  (sortAsc times)[(⌊(times.length : ℚ) * p⌋).toNat]?

/-- `statistics.mean`: sum divided by length, undefined on the empty list. -/
def meanOf (l : List ℚ) : Option ℚ :=
  if l.length = 0 then none else some (l.sum / (l.length : ℚ))

/-- `statistics.median`: middle element of the ascending sort for odd length,
average of the two middle elements for even length. -/
def medianOf (l : List ℚ) : Option ℚ :=
  let s := sortAsc l
  let n := s.length
  if n = 0 then none
  else if n % 2 = 1 then s[n / 2]?
  else
    match s[n / 2 - 1]?, s[n / 2]? with
    | some a, some b => some ((a + b) / 2)
    | _, _ => none

/-- One entry of `self.health_check_results` (lines 386-400), reduced to the
fields the Reporter's health summary reads. -/
structure HealthSample where
  timestamp : ℚ
  status : String
deriving DecidableEq

/-- The numbers `print_results` (lines 520-602) computes.  Latency and token
statistics are `none` when the code prints nothing for them (no successful
outcome; percentiles additionally require at least two). -/
structure Aggregate where
  total : Nat
  successful : Nat
  failed : Nat
  timeouts : Nat
  retried : Nat
  minLatency : Option ℚ
  maxLatency : Option ℚ
  meanLatency : Option ℚ
  medianLatency : Option ℚ
  p95Latency : Option ℚ
  p99Latency : Option ℚ
  avgTokensSent : Option ℚ
  totalTokensSent : Nat
  totalTokensReceived : Nat
  requestsPerSecond : ℚ
  successPerSecond : ℚ
  totalHealthChecks : Nat
  healthyChecks : Nat
deriving DecidableEq

/-- The aggregate computation of `print_results`.  `start_time` is
`self.start_time`; `now` is the value of `time.time()` at line 592, i.e. the
moment the Reporter runs: the code sets `test_duration = time.time() -
self.start_time` and divides the throughput figures by it. -/
def computeAggregate (results : List RequestResult)
    (healths : List HealthSample) (start_time now : ℚ) : Aggregate :=
  let successfulR := results.filter (fun r => r.status == "success")
  let failedR := results.filter (fun r => r.status == "error")
  let timeoutR := results.filter (fun r => r.status == "timeout")
  let retriedR := results.filter (fun r => decide (0 < r.retry_count))
  let response_times := successfulR.map (fun r => r.response_time)
  let tokens_sent := successfulR.map (fun r => r.tokens_sent)
  let tokens_received := successfulR.map (fun r => r.tokens_received)
  let test_duration := now - start_time
  { total := results.length
    successful := successfulR.length
    failed := failedR.length
    timeouts := timeoutR.length
    retried := retriedR.length
    minLatency := response_times.min?
    maxLatency := response_times.max?
    meanLatency := meanOf response_times
    medianLatency := medianOf response_times
    p95Latency :=
      if 1 < response_times.length then percentileAt response_times (95 / 100)
      else none
    p99Latency :=
      if 1 < response_times.length then percentileAt response_times (99 / 100)
      else none
    avgTokensSent :=
      if successfulR.length = 0 then none
      else some ((tokens_sent.sum : ℚ) / (successfulR.length : ℚ))
    totalTokensSent := tokens_sent.sum
    totalTokensReceived := tokens_received.sum
    requestsPerSecond := (results.length : ℚ) / test_duration
    successPerSecond := (successfulR.length : ℚ) / test_duration
    totalHealthChecks := healths.length
    healthyChecks := (healths.filter (fun h => h.status == "healthy")).length }

/-- One successful outcome, used as a concrete ResultStore content. -/
def sampleSuccess : RequestResult :=
  { user_id := 0, request_type := "MCP_file_search", context_length := 100,
    status := "success", response_time := 2, tokens_sent := 100,
    tokens_received := 10, response_content := some "ok", error := none,
    timestamp := 5, retry_count := 0 }

/-- `base_context = int(self.config.max_context_tokens *
prompt_template['context_multiplier'])` (line 444). -/
def base_context (max_context_tokens : Nat) (context_multiplier : ℚ) : ℤ :=
  ⌊(max_context_tokens : ℚ) * context_multiplier⌋

/-- `target_tokens = int(base_context * variation)` (lines 445-446): the
code floors the template product first and then floors again after applying
the random variation `v`. -/
def target_tokens (max_context_tokens : Nat) (context_multiplier v : ℚ) : ℤ :=
  ⌊(base_context max_context_tokens context_multiplier : ℚ) * v⌋

/-- The target-token formula as the spec words it — a single floor of the
full product `contextFraction * maxContextTokens * v` — written out for
comparison with `target_tokens`, the code's double floor. -/
def target_tokens_single_floor (max_context_tokens : Nat)
    (context_multiplier v : ℚ) : ℤ :=
  ⌊(max_context_tokens : ℚ) * context_multiplier * v⌋

/-- The `while time.time() < end_time` loop of `endpoint_monitor`
(lines 403-423), relative to `self.start_time`: starting at clock `t`, if
`t < end_time` record a probe at `t` and continue at `t + check_interval`.
The probe itself is idealised as instantaneous, as the claim's counting
formula presumes.  `fuel` bounds the iterations; with a positive interval,
`end_time + 1` iterations always suffice. -/
def monitorLoopFuel : Nat → Nat → Nat → Nat → List Nat
  | 0, _, _, _ => []
  | fuel + 1, check_interval, end_time, t =>
    if t < end_time then
      t :: monitorLoopFuel fuel check_interval end_time (t + check_interval)
    else []

/-- The probe times of one `endpoint_monitor` run of the given duration:
sleep `startup_delay` (line 409, there 2), then loop with the given
`check_interval` (line 406, there 30) until the deadline. -/
def endpoint_monitor_samples (startup_delay check_interval duration : Nat) :
    List Nat :=
  monitorLoopFuel (duration + 1) check_interval duration startup_delay

/-- Invariant of the retry loop: every return site records a status string
that matches its terminal state, a retry count between the entry index and
`max_retries`, and the elapsed time of exactly the final attempt. -/
theorem sendAttempts_invariant (cfg : TestConfig) (env : Nat → Attempt)
    (u : Nat) (p rt : String) (cl : Nat) :
    ∀ fuel retry now sleeps gauge,
      cfg.max_retries + 1 ≤ fuel + retry → retry ≤ cfg.max_retries →
      ((sendAttempts cfg env u p rt cl fuel retry now sleeps gauge).result.status
          = statusString
              (sendAttempts cfg env u p rt cl fuel retry now sleeps gauge).terminal
        ∧ retry ≤
            (sendAttempts cfg env u p rt cl fuel retry now sleeps gauge).result.retry_count
        ∧ (sendAttempts cfg env u p rt cl fuel retry now sleeps gauge).result.retry_count
            ≤ cfg.max_retries
        ∧ (sendAttempts cfg env u p rt cl fuel retry now sleeps gauge).result.response_time
            = (env (sendAttempts cfg env u p rt cl fuel
                retry now sleeps gauge).result.retry_count).duration) := by
  intro fuel
  induction fuel with
  | zero => intro retry now sleeps gauge hfuel hretry; omega
  | succ fuel ih =>
    intro retry now sleeps gauge hfuel hretry
    rcases henv : (env retry).result with ⟨status, tokens, content, body⟩ | _ | msg
    · by_cases h200 : status = 200
      · simp [sendAttempts, henv, h200, statusString, hretry]
      · by_cases h4 : 400 ≤ status ∧ status < 500 ∧ retry = 0
        · obtain ⟨ha, hb, hc⟩ := h4
          subst hc
          simp [sendAttempts, henv, h200, ha, hb, statusString]
        · by_cases hlt : retry < cfg.max_retries
          · simp only [sendAttempts, henv, h200, h4, hlt, if_true, if_false,
              if_neg, if_pos]
            obtain ⟨h1, h2, h3, h4'⟩ :=
              ih (retry + 1) (now + (env retry).duration + 2 ^ retry)
                (sleeps ++ [(2 : ℚ) ^ retry]) (gauge + 1 - 1)
                (by omega) (by omega)
            exact ⟨h1, by omega, h3, h4'⟩
          · simp [sendAttempts, henv, h200, h4, hlt, statusString, hretry]
    · by_cases hlt : retry < cfg.max_retries
      · simp only [sendAttempts, henv, hlt, if_pos]
        obtain ⟨h1, h2, h3, h4'⟩ :=
          ih (retry + 1) (now + (env retry).duration + 1)
            (sleeps ++ [(1 : ℚ)]) (gauge + 1 - 1) (by omega) (by omega)
        exact ⟨h1, by omega, h3, h4'⟩
      · simp [sendAttempts, henv, hlt, statusString, hretry]
    · by_cases hlt : retry < cfg.max_retries
      · simp only [sendAttempts, henv, hlt, if_pos]
        obtain ⟨h1, h2, h3, h4'⟩ :=
          ih (retry + 1) (now + (env retry).duration + 1)
            (sleeps ++ [(1 : ℚ)]) (gauge + 1 - 1) (by omega) (by omega)
        exact ⟨h1, by omega, h3, h4'⟩
      · simp [sendAttempts, henv, hlt, statusString, hretry]

/-- Claim C1: every outcome produced by `send_llm_request` lands in one of
exactly the five terminal states (success, client_error,
server_error_exhausted, timeout_exhausted, transport_error_exhausted), and
the `status` string stored in the outcome is exactly the code's rendering of
that terminal state (`"success"`, `"error"`, `"error"`, `"timeout"`,
`"error"` respectively) — in particular the fuel-exhaustion marker status
is unreachable. -/
theorem claim_C1 (cfg : TestConfig) (env : Nat → Attempt) (u : Nat)
    (p rt : String) (cl : Nat) (t0 : ℚ) :
    ((send_llm_request cfg env u p rt cl t0).terminal = .success
      ∨ (send_llm_request cfg env u p rt cl t0).terminal = .client_error
      ∨ (send_llm_request cfg env u p rt cl t0).terminal = .server_error_exhausted
      ∨ (send_llm_request cfg env u p rt cl t0).terminal = .timeout_exhausted
      ∨ (send_llm_request cfg env u p rt cl t0).terminal = .transport_error_exhausted)
    ∧ (send_llm_request cfg env u p rt cl t0).result.status
        = statusString (send_llm_request cfg env u p rt cl t0).terminal := by
  have h := sendAttempts_invariant cfg env u p rt cl (cfg.max_retries + 1) 0 t0 [] 0
    (by omega) (Nat.zero_le _)
  have h5 : ∀ t : TerminalState, t = .success ∨ t = .client_error
      ∨ t = .server_error_exhausted ∨ t = .timeout_exhausted
      ∨ t = .transport_error_exhausted := by
    intro t; cases t <;> simp
  exact ⟨h5 _, h.1⟩

/-- Claim C2 (code bug): with `max_retries = 2`, an endpoint answering
HTTP 500, then HTTP 404, then HTTP 200 drives the code to retry the 4xx
response (the guard at line 277 requires `retry == 0`): the 4xx attempt is
followed by a backoff of 2 and a third attempt, and the call returns a
success outcome with `retry_count = 2` instead of an immediate
`client_error` with `retry_count = 0`.  A 4xx on the very first attempt
does return immediately as the claim describes. -/
theorem claim_C2 :
    (send_llm_request {} envFlaky 0 "p" "MCP_file_search" 10 0).result.status = "success"
    ∧ (send_llm_request {} envFlaky 0 "p" "MCP_file_search" 10 0).result.retry_count = 2
    ∧ (send_llm_request {} envFlaky 0 "p" "MCP_file_search" 10 0).terminal = .success
    ∧ (send_llm_request {} envFlaky 0 "p" "MCP_file_search" 10 0).sleeps = [1, 2]
    ∧ (send_llm_request {} envClient 0 "p" "MCP_file_search" 10 0).terminal = .client_error
    ∧ (send_llm_request {} envClient 0 "p" "MCP_file_search" 10 0).result.retry_count = 0 := by
  decide

/-- Claim C6: the elapsed time recorded in the outcome is that of the final
attempt only — it equals the duration of attempt number `retry_count`, so
for a retried request it excludes all earlier attempts and all backoff
delays (the clock restarts at the beginning of each attempt, line 228). -/
theorem claim_C6 (cfg : TestConfig) (env : Nat → Attempt) (u : Nat)
    (p rt : String) (cl : Nat) (t0 : ℚ) :
    (send_llm_request cfg env u p rt cl t0).result.response_time
      = (env (send_llm_request cfg env u p rt cl t0).result.retry_count).duration :=
  (sendAttempts_invariant cfg env u p rt cl (cfg.max_retries + 1) 0 t0 [] 0
    (by omega) (Nat.zero_le _)).2.2.2

/-- If every attempt fails with a retryable cause (timeout, transport
exception, or HTTP 5xx), the loop spends its whole retry budget: the
terminal outcome carries `retry_count = max_retries`. -/
theorem sendAttempts_retryable_exhausts (cfg : TestConfig)
    (env : Nat → Attempt) (u : Nat) (p rt : String) (cl : Nat)
    (hall : ∀ j, retryableCause (env j).result = true) :
    ∀ fuel retry now sleeps gauge,
      cfg.max_retries + 1 ≤ fuel + retry → retry ≤ cfg.max_retries →
      (sendAttempts cfg env u p rt cl fuel retry now sleeps gauge).result.retry_count
        = cfg.max_retries := by
  intro fuel
  induction fuel with
  | zero => intro retry now sleeps gauge hfuel hretry; omega
  | succ fuel ih =>
    intro retry now sleeps gauge hfuel hretry
    rcases henv : (env retry).result with ⟨status, tokens, content, body⟩ | _ | msg
    · have h500 : 500 ≤ status := by
        have h := hall retry; rw [henv] at h
        simpa [retryableCause] using h
      have h200 : ¬ status = 200 := by omega
      have h4 : ¬ (400 ≤ status ∧ status < 500 ∧ retry = 0) := by omega
      by_cases hlt : retry < cfg.max_retries
      · simp only [sendAttempts, henv, h200, h4, hlt, if_pos, if_neg,
          not_false_eq_true]
        exact ih (retry + 1) (now + (env retry).duration + 2 ^ retry)
          (sleeps ++ [(2 : ℚ) ^ retry]) (gauge + 1 - 1) (by omega) (by omega)
      · have heq : retry = cfg.max_retries := by omega
        subst heq
        simp [sendAttempts, henv, h200, h4, hlt]
    · by_cases hlt : retry < cfg.max_retries
      · simp only [sendAttempts, henv, hlt, if_pos]
        exact ih (retry + 1) (now + (env retry).duration + 1)
          (sleeps ++ [(1 : ℚ)]) (gauge + 1 - 1) (by omega) (by omega)
      · have heq : retry = cfg.max_retries := by omega
        subst heq
        simp [sendAttempts, henv, hlt]
    · by_cases hlt : retry < cfg.max_retries
      · simp only [sendAttempts, henv, hlt, if_pos]
        exact ih (retry + 1) (now + (env retry).duration + 1)
          (sleeps ++ [(1 : ℚ)]) (gauge + 1 - 1) (by omega) (by omega)
      · have heq : retry = cfg.max_retries := by omega
        subst heq
        simp [sendAttempts, henv, hlt]

/-- If every attempt times out, the loop exhausts its budget through the
timeout branch: terminal state `timeout_exhausted` with
`retry_count = max_retries`. -/
theorem sendAttempts_all_timeout (cfg : TestConfig) (env : Nat → Attempt)
    (u : Nat) (p rt : String) (cl : Nat)
    (hall : ∀ j, (env j).result = .timeout) :
    ∀ fuel retry now sleeps gauge,
      cfg.max_retries + 1 ≤ fuel + retry → retry ≤ cfg.max_retries →
      (sendAttempts cfg env u p rt cl fuel retry now sleeps gauge).terminal
          = .timeout_exhausted
        ∧ (sendAttempts cfg env u p rt cl fuel retry now sleeps gauge).result.retry_count
          = cfg.max_retries := by
  intro fuel
  induction fuel with
  | zero => intro retry now sleeps gauge hfuel hretry; omega
  | succ fuel ih =>
    intro retry now sleeps gauge hfuel hretry
    have henv := hall retry
    by_cases hlt : retry < cfg.max_retries
    · simp only [sendAttempts, henv, hlt, if_pos]
      exact ih (retry + 1) (now + (env retry).duration + 1)
        (sleeps ++ [(1 : ℚ)]) (gauge + 1 - 1) (by omega) (by omega)
    · have heq : retry = cfg.max_retries := by omega
      subst heq
      simp [sendAttempts, henv, hlt]

/-- Claim C7: `retry_count` never exceeds `max_retries`; when every attempt
fails with a retryable cause (timeout, transport failure, or HTTP 5xx) the
terminal outcome has `retry_count` exactly `max_retries`; in particular an
endpoint that always times out yields a timeout-exhausted outcome with
`retry_count = max_retries`. -/
theorem claim_C7 (cfg : TestConfig) (env : Nat → Attempt) (u : Nat)
    (p rt : String) (cl : Nat) (t0 : ℚ) :
    (send_llm_request cfg env u p rt cl t0).result.retry_count ≤ cfg.max_retries
    ∧ ((∀ j, retryableCause (env j).result = true) →
        (send_llm_request cfg env u p rt cl t0).result.retry_count
          = cfg.max_retries)
    ∧ ((∀ j, (env j).result = .timeout) →
        (send_llm_request cfg env u p rt cl t0).terminal = .timeout_exhausted
        ∧ (send_llm_request cfg env u p rt cl t0).result.status = "timeout"
        ∧ (send_llm_request cfg env u p rt cl t0).result.retry_count
          = cfg.max_retries) := by
  refine ⟨?_, ?_, ?_⟩
  · exact (sendAttempts_invariant cfg env u p rt cl (cfg.max_retries + 1) 0 t0 [] 0
      (by omega) (Nat.zero_le _)).2.2.1
  · intro hall
    exact sendAttempts_retryable_exhausts cfg env u p rt cl hall
      (cfg.max_retries + 1) 0 t0 [] 0 (by omega) (Nat.zero_le _)
  · intro hall
    have ht := sendAttempts_all_timeout cfg env u p rt cl hall
      (cfg.max_retries + 1) 0 t0 [] 0 (by omega) (Nat.zero_le _)
    have hs := (sendAttempts_invariant cfg env u p rt cl (cfg.max_retries + 1) 0 t0 [] 0
      (by omega) (Nat.zero_le _)).1
    refine ⟨ht.1, ?_, ht.2⟩
    calc (send_llm_request cfg env u p rt cl t0).result.status
        = statusString (send_llm_request cfg env u p rt cl t0).terminal := hs
      _ = "timeout" := by
            rw [show (send_llm_request cfg env u p rt cl t0).terminal
              = .timeout_exhausted from ht.1]
            rfl

/-- Witness for claim C7 at a concrete input: an endpoint that always times
out, with the default configuration (`max_retries = 2`). -/
theorem claim_C7_witness :
    (send_llm_request {} envTimeout 0 "p" "MCP_file_search" 10 0).result.retry_count ≤ 2
    ∧ (send_llm_request {} envTimeout 0 "p" "MCP_file_search" 10 0).terminal
        = .timeout_exhausted
    ∧ (send_llm_request {} envTimeout 0 "p" "MCP_file_search" 10 0).result.status
        = "timeout"
    ∧ (send_llm_request {} envTimeout 0 "p" "MCP_file_search" 10 0).result.retry_count
        = 2 := by
  have h := claim_C7 {} envTimeout 0 "p" "MCP_file_search" 10 0
  have h3 := h.2.2 (fun j => rfl)
  exact ⟨h.1, h3.1, h3.2.1, h3.2.2⟩

/-- Claim C9 (code bug): the net change of the shared `active_requests`
gauge over one call is -1, not 0, whenever the call returns through an
HTTP-error return site: those paths decrement the gauge twice (line 240 and
again line 278 or 298).  A successful call and an exhausted timeout are
balanced at net 0. -/
theorem claim_C9 :
    (send_llm_request {} envClient 0 "p" "MCP_file_search" 10 0).gaugeDelta = -1
    ∧ (send_llm_request {} envServer 0 "p" "MCP_file_search" 10 0).gaugeDelta = -1
    ∧ (send_llm_request {} envOk 0 "p" "MCP_file_search" 10 0).gaugeDelta = 0
    ∧ (send_llm_request {} envTimeout 0 "p" "MCP_file_search" 10 0).gaugeDelta = 0 := by
  decide

/-- In the backoff accounting, if attempts `retry, ..., k-1` all fail with
HTTP 5xx and attempt `k` answers HTTP 200, the sleeps performed from attempt
`retry` on are `2^retry, 2^(retry+1), ..., 2^(k-1)` — `asyncio.sleep(2 **
retry)` at line 295. -/
theorem sendAttempts_sleeps_server (cfg : TestConfig) (env : Nat → Attempt)
    (u : Nat) (p rt : String) (cl : Nat) (k : Nat) (hk : k ≤ cfg.max_retries)
    (hterm : isHttp200 (env k).result = true)
    (h5 : ∀ j, j < k → isServerError (env j).result = true) :
    ∀ fuel retry now sleeps gauge,
      cfg.max_retries + 1 ≤ fuel + retry → retry ≤ k →
      (sendAttempts cfg env u p rt cl fuel retry now sleeps gauge).sleeps =
        sleeps ++ (List.range' retry (k - retry)).map (fun j => (2 : ℚ) ^ j) := by
  intro fuel
  induction fuel with
  | zero => intro retry now sleeps gauge hfuel hretry; omega
  | succ fuel ih =>
    intro retry now sleeps gauge hfuel hretry
    by_cases hrk : retry = k
    · subst hrk
      rcases henv : (env retry).result with ⟨status, tokens, content, body⟩ | _ | msg
      · rw [henv] at hterm
        have h200 : status = 200 := by simpa [isHttp200] using hterm
        simp [sendAttempts, henv, h200]
      · rw [henv] at hterm; simp [isHttp200] at hterm
      · rw [henv] at hterm; simp [isHttp200] at hterm
    · have hlt : retry < k := lt_of_le_of_ne hretry hrk
      have h5r := h5 retry hlt
      rcases henv : (env retry).result with ⟨status, tokens, content, body⟩ | _ | msg
      · rw [henv] at h5r
        have hrange : 500 ≤ status ∧ status < 600 := by
          simpa [isServerError] using h5r
        have h200 : ¬ status = 200 := by omega
        have h4 : ¬ (400 ≤ status ∧ status < 500 ∧ retry = 0) := by omega
        have hltmax : retry < cfg.max_retries := lt_of_lt_of_le hlt hk
        simp only [sendAttempts, henv, h200, h4, hltmax, if_pos, if_neg,
          not_false_eq_true]
        rw [ih (retry + 1) (now + (env retry).duration + 2 ^ retry)
          (sleeps ++ [(2 : ℚ) ^ retry]) (gauge + 1 - 1) (by omega) (by omega)]
        have hsplit : k - retry = (k - retry - 1) + 1 := by omega
        have hidx : retry + 1 + (k - retry - 1) = k := by omega
        rw [hsplit, List.range'_succ]
        have hn : k - (retry + 1) = k - retry - 1 := by omega
        rw [hn]
        simp [List.append_assoc]
      · rw [henv] at h5r; simp [isServerError] at h5r
      · rw [henv] at h5r; simp [isServerError] at h5r

/-- In the backoff accounting, if attempts `retry, ..., k-1` all fail with a
timeout or a transport exception and attempt `k` answers HTTP 200, every
sleep performed is the fixed `asyncio.sleep(1)` of lines 316 and 335. -/
theorem sendAttempts_sleeps_transient (cfg : TestConfig) (env : Nat → Attempt)
    (u : Nat) (p rt : String) (cl : Nat) (k : Nat) (hk : k ≤ cfg.max_retries)
    (hterm : isHttp200 (env k).result = true)
    (htr : ∀ j, j < k → isTransient (env j).result = true) :
    ∀ fuel retry now sleeps gauge,
      cfg.max_retries + 1 ≤ fuel + retry → retry ≤ k →
      (sendAttempts cfg env u p rt cl fuel retry now sleeps gauge).sleeps =
        sleeps ++ List.replicate (k - retry) (1 : ℚ) := by
  intro fuel
  induction fuel with
  | zero => intro retry now sleeps gauge hfuel hretry; omega
  | succ fuel ih =>
    intro retry now sleeps gauge hfuel hretry
    by_cases hrk : retry = k
    · subst hrk
      rcases henv : (env retry).result with ⟨status, tokens, content, body⟩ | _ | msg
      · rw [henv] at hterm
        have h200 : status = 200 := by simpa [isHttp200] using hterm
        simp [sendAttempts, henv, h200]
      · rw [henv] at hterm; simp [isHttp200] at hterm
      · rw [henv] at hterm; simp [isHttp200] at hterm
    · have hlt : retry < k := lt_of_le_of_ne hretry hrk
      have htrr := htr retry hlt
      have hltmax : retry < cfg.max_retries := lt_of_lt_of_le hlt hk
      have hsplit : k - retry = (k - retry - 1) + 1 := by omega
      rcases henv : (env retry).result with ⟨status, tokens, content, body⟩ | _ | msg
      · rw [henv] at htrr; simp [isTransient] at htrr
      · simp only [sendAttempts, henv, hltmax, if_pos]
        rw [ih (retry + 1) (now + (env retry).duration + 1)
          (sleeps ++ [(1 : ℚ)]) (gauge + 1 - 1) (by omega) (by omega)]
        rw [hsplit, List.replicate_succ]
        have hn : k - (retry + 1) = k - retry - 1 := by omega
        rw [hn]
        simp [List.append_assoc]
      · simp only [sendAttempts, henv, hltmax, if_pos]
        rw [ih (retry + 1) (now + (env retry).duration + 1)
          (sleeps ++ [(1 : ℚ)]) (gauge + 1 - 1) (by omega) (by omega)]
        rw [hsplit, List.replicate_succ]
        have hn : k - (retry + 1) = k - retry - 1 := by omega
        rw [hn]
        simp [List.append_assoc]

/-- Claim C5: if attempts `0..k-1` all answer HTTP 5xx and attempt `k`
succeeds, the backoff delays inserted are `2^0, 2^1, ..., 2^(k-1)` — the
delay before the k-th retry after a 5xx is `2^(k-1)` (doubling, starting at
1 time unit); if instead attempts `0..k-1` all fail with a timeout or
transport exception, every inserted delay is the fixed 1 time unit. -/
theorem claim_C5 (cfg : TestConfig) (env : Nat → Attempt) (u : Nat)
    (p rt : String) (cl : Nat) (t0 : ℚ) (k : Nat) (hk : k ≤ cfg.max_retries)
    (hterm : isHttp200 (env k).result = true) :
    ((∀ j, j < k → isServerError (env j).result = true) →
      (send_llm_request cfg env u p rt cl t0).sleeps =
        (List.range k).map (fun j => (2 : ℚ) ^ j))
    ∧ ((∀ j, j < k → isTransient (env j).result = true) →
      (send_llm_request cfg env u p rt cl t0).sleeps =
        List.replicate k (1 : ℚ)) := by
  constructor
  · intro h5
    have h := sendAttempts_sleeps_server cfg env u p rt cl k hk hterm h5
      (cfg.max_retries + 1) 0 t0 [] 0 (by omega) (Nat.zero_le _)
    simpa [send_llm_request, List.range_eq_range'] using h
  · intro htr
    have h := sendAttempts_sleeps_transient cfg env u p rt cl k hk hterm htr
      (cfg.max_retries + 1) 0 t0 [] 0 (by omega) (Nat.zero_le _)
    simpa [send_llm_request] using h

/-- Witness for claim C5 at the concrete scenario the claim gives:
`max_retries = 2`, two consecutive HTTP 500 responses, then success — the
backoff delays are 1 then 2 and the cumulative backoff is 3 time units. -/
theorem claim_C5_witness :
    (send_llm_request {} envTwo500 0 "p" "MCP_file_search" 10 0).sleeps = [1, 2]
    ∧ (send_llm_request {} envTwo500 0 "p" "MCP_file_search" 10 0).sleeps.sum = 3 := by
  have h := (claim_C5 {} envTwo500 0 "p" "MCP_file_search" 10 0 2
    (by decide) (by decide)).1 (fun j hj => by interval_cases j <;> decide)
  rw [h]
  norm_num [List.range_succ]

/-- Claim C3 (amended part): every figure of the aggregate other than the
two throughput figures is a pure function of the collected results and
health samples — recomputing at a different Reporter time leaves them all
unchanged. -/
theorem claim_C3 (results : List RequestResult) (healths : List HealthSample)
    (start_time now₁ now₂ : ℚ) :
    (computeAggregate results healths start_time now₁).total
        = (computeAggregate results healths start_time now₂).total
    ∧ (computeAggregate results healths start_time now₁).successful
        = (computeAggregate results healths start_time now₂).successful
    ∧ (computeAggregate results healths start_time now₁).failed
        = (computeAggregate results healths start_time now₂).failed
    ∧ (computeAggregate results healths start_time now₁).timeouts
        = (computeAggregate results healths start_time now₂).timeouts
    ∧ (computeAggregate results healths start_time now₁).retried
        = (computeAggregate results healths start_time now₂).retried
    ∧ (computeAggregate results healths start_time now₁).minLatency
        = (computeAggregate results healths start_time now₂).minLatency
    ∧ (computeAggregate results healths start_time now₁).maxLatency
        = (computeAggregate results healths start_time now₂).maxLatency
    ∧ (computeAggregate results healths start_time now₁).meanLatency
        = (computeAggregate results healths start_time now₂).meanLatency
    ∧ (computeAggregate results healths start_time now₁).medianLatency
        = (computeAggregate results healths start_time now₂).medianLatency
    ∧ (computeAggregate results healths start_time now₁).p95Latency
        = (computeAggregate results healths start_time now₂).p95Latency
    ∧ (computeAggregate results healths start_time now₁).p99Latency
        = (computeAggregate results healths start_time now₂).p99Latency
    ∧ (computeAggregate results healths start_time now₁).avgTokensSent
        = (computeAggregate results healths start_time now₂).avgTokensSent
    ∧ (computeAggregate results healths start_time now₁).totalTokensSent
        = (computeAggregate results healths start_time now₂).totalTokensSent
    ∧ (computeAggregate results healths start_time now₁).totalTokensReceived
        = (computeAggregate results healths start_time now₂).totalTokensReceived
    ∧ (computeAggregate results healths start_time now₁).totalHealthChecks
        = (computeAggregate results healths start_time now₂).totalHealthChecks
    ∧ (computeAggregate results healths start_time now₁).healthyChecks
        = (computeAggregate results healths start_time now₂).healthyChecks :=
  ⟨rfl, rfl, rfl, rfl, rfl, rfl, rfl, rfl, rfl, rfl, rfl, rfl, rfl, rfl, rfl, rfl⟩

/-- Counterexample to claim C3 as stated: the aggregate is not a pure
function of the ResultStore contents — over the identical, unmodified
single-success store, running the Reporter at time 10 and at time 20 yields
different aggregates, because `print_results` divides the throughput
figures by `time.time() - self.start_time` evaluated when it runs. -/
theorem claim_C3_cex :
    computeAggregate [sampleSuccess] [] 0 10
      ≠ computeAggregate [sampleSuccess] [] 0 20
    ∧ (computeAggregate [sampleSuccess] [] 0 10).requestsPerSecond
      ≠ (computeAggregate [sampleSuccess] [] 0 20).requestsPerSecond := by
  have h2 : (computeAggregate [sampleSuccess] [] 0 10).requestsPerSecond
      ≠ (computeAggregate [sampleSuccess] [] 0 20).requestsPerSecond := by
    norm_num [computeAggregate, sampleSuccess]
  exact ⟨fun h => h2 (congrArg Aggregate.requestsPerSecond h), h2⟩

/-- Claim C4: on an already ascending-sorted latency list the Reporter's
percentile is the element at 0-based index `floor(n * p)` of that list. -/
theorem claim_C4 (l : List ℚ) (p : ℚ) (hl : l.Sorted (· ≤ ·)) :
    percentileAt l p = l[(⌊(l.length : ℚ) * p⌋).toNat]? := by
  unfold percentileAt sortAsc
  rw [List.Sorted.insertionSort_eq hl]

/-- Witness for claim C4 at the claim's own example: ascending latencies
`[1,2,3,4,5]`, p95 index `floor(5 * 0.95) = 4`, value 5. -/
theorem claim_C4_witness :
    ([1, 2, 3, 4, 5] : List ℚ).Sorted (· ≤ ·)
    ∧ (⌊(([1, 2, 3, 4, 5] : List ℚ).length : ℚ) * (95 / 100)⌋).toNat = 4
    ∧ percentileAt [1, 2, 3, 4, 5] (95 / 100) = some 5 := by
  have hs : ([1, 2, 3, 4, 5] : List ℚ).Sorted (· ≤ ·) := by
    simp [List.sorted_cons]
    norm_num
  have hlen : (([1, 2, 3, 4, 5] : List ℚ).length : ℚ) = 5 := by norm_num
  have hfl : ⌊(5 : ℚ) * (95 / 100)⌋ = 4 := by
    rw [Int.floor_eq_iff]
    constructor <;> norm_num
  have hidx : (⌊(([1, 2, 3, 4, 5] : List ℚ).length : ℚ) * (95 / 100)⌋).toNat = 4 := by
    rw [hlen, hfl]
    rfl
  refine ⟨hs, hidx, ?_⟩
  rw [claim_C4 _ _ hs, hidx]
  rfl

/-- Claim C8 (amended part): the code's target-token value (a floor of the
template product, floored again after the random variation) never exceeds
the spec's single-floor value, and coincides with it whenever
`contextFraction * maxContextTokens` is an integer — as it is for all six
built-in templates at the default `max_context_tokens = 6000`. -/
theorem claim_C8 (max_context_tokens : Nat) (context_multiplier v : ℚ)
    (hv : 0 ≤ v) :
    target_tokens max_context_tokens context_multiplier v
      ≤ target_tokens_single_floor max_context_tokens context_multiplier v
    ∧ ((∃ B : ℤ, (max_context_tokens : ℚ) * context_multiplier = (B : ℚ)) →
        target_tokens max_context_tokens context_multiplier v
          = target_tokens_single_floor max_context_tokens context_multiplier v) := by
  constructor
  · apply Int.floor_le_floor
    exact mul_le_mul_of_nonneg_right (Int.floor_le _) hv
  · rintro ⟨B, hB⟩
    unfold target_tokens target_tokens_single_floor base_context
    rw [hB, Int.floor_intCast]

/-- Witness for claim C8 at the default configuration: template fraction
0.3, `max_context_tokens = 6000` (so the template product is the integer
1800), draw `v = 0.7`. -/
theorem claim_C8_witness :
    target_tokens 6000 (3 / 10) (7 / 10)
      = target_tokens_single_floor 6000 (3 / 10) (7 / 10) :=
  (claim_C8 6000 (3 / 10) (7 / 10) (by norm_num)).2 ⟨1800, by norm_num⟩

/-- Counterexample to claim C8 as stated: with `max_context_tokens = 1003`,
the file_search template fraction 0.3 and the admissible draw `v = 0.999`,
the code computes `int(int(1003 * 0.3) * 0.999) = int(300 * 0.999) = 299`,
while a single floor of the full product gives
`floor(1003 * 0.3 * 0.999) = floor(300.5991) = 300`. -/
theorem claim_C8_cex :
    (7 / 10 : ℚ) ≤ 999 / 1000 ∧ (999 / 1000 : ℚ) ≤ 1
    ∧ target_tokens 1003 (3 / 10) (999 / 1000) = 299
    ∧ target_tokens_single_floor 1003 (3 / 10) (999 / 1000) = 300
    ∧ target_tokens 1003 (3 / 10) (999 / 1000)
      ≠ target_tokens_single_floor 1003 (3 / 10) (999 / 1000) := by
  have hb : base_context 1003 (3 / 10) = 300 := by
    unfold base_context
    rw [Int.floor_eq_iff]
    constructor <;> norm_num
  have h2 : target_tokens 1003 (3 / 10) (999 / 1000) = 299 := by
    unfold target_tokens
    rw [hb, Int.floor_eq_iff]
    constructor <;> norm_num
  have h3 : target_tokens_single_floor 1003 (3 / 10) (999 / 1000) = 300 := by
    unfold target_tokens_single_floor
    rw [Int.floor_eq_iff]
    constructor <;> norm_num
  refine ⟨by norm_num, by norm_num, h2, h3, ?_⟩
  rw [h2, h3]
  decide

/-- Closed form of the monitor loop: starting at clock `t`, it records
`ceil((end_time - t) / interval)` probes — `floor((end_time - t - 1) /
interval) + 1` when `t` is before the deadline and none otherwise. -/
theorem monitorLoopFuel_length (check_interval : Nat) (hi : 0 < check_interval)
    (end_time : Nat) :
    ∀ fuel t, end_time - t ≤ fuel →
      (monitorLoopFuel fuel check_interval end_time t).length =
        if t < end_time then (end_time - t - 1) / check_interval + 1 else 0 := by
  intro fuel
  induction fuel with
  | zero =>
    intro t h
    have hnt : ¬ t < end_time := by omega
    simp [monitorLoopFuel, hnt]
  | succ fuel ih =>
    intro t h
    by_cases hlt : t < end_time
    · rw [if_pos hlt]
      simp only [monitorLoopFuel, hlt, if_pos, List.length_cons]
      rw [ih (t + check_interval) (by omega)]
      by_cases h2 : t + check_interval < end_time
      · rw [if_pos h2]
        have e1 : end_time - t - 1
            = (end_time - (t + check_interval) - 1) + check_interval := by omega
        rw [e1, Nat.add_div_right _ hi]
      · rw [if_neg h2]
        have hsmall : end_time - t - 1 < check_interval := by omega
        rw [Nat.div_eq_of_lt hsmall]
    · simp [monitorLoopFuel, hlt]

/-- Claim C10 (amended part): an `endpoint_monitor` run over duration `D`
with startup delay `s` and probe interval `i` records
`floor((D - s - 1) / i) + 1` health samples when `s < D` and none
otherwise — that is `ceil((D - s) / i)`, which matches the claimed
`floor((D - s) / i) + 1` except when `D - s` is an exact multiple of `i`:
the probe that would fall exactly on the deadline is skipped by the strict
`while time.time() < end_time` test. -/
theorem claim_C10 (startup_delay check_interval duration : Nat)
    (hi : 0 < check_interval) :
    (endpoint_monitor_samples startup_delay check_interval duration).length =
      if startup_delay < duration then
        (duration - startup_delay - 1) / check_interval + 1
      else 0 := by
  unfold endpoint_monitor_samples
  exact monitorLoopFuel_length check_interval hi duration (duration + 1)
    startup_delay (by omega)

/-- Witness for claim C10 at the code's constants over the default run:
startup delay 2, interval 30, duration 300 — ten probes. -/
theorem claim_C10_witness :
    0 < 30
    ∧ (endpoint_monitor_samples 2 30 300).length =
        (if 2 < 300 then (300 - 2 - 1) / 30 + 1 else 0)
    ∧ (endpoint_monitor_samples 2 30 300).length = 10 :=
  ⟨by decide, claim_C10 2 30 300 (by decide), by decide⟩

/-- Counterexample to claim C10 as stated: with startup delay 2, interval
30 and duration 62 the monitor probes at 2 and 32 only — the probe due
exactly at the deadline 62 is not taken — so it records 2 samples where the
claimed `floor((62 - 2) / 30) + 1 = 3`. -/
theorem claim_C10_cex :
    endpoint_monitor_samples 2 30 62 = [2, 32]
    ∧ (endpoint_monitor_samples 2 30 62).length ≠ (62 - 2) / 30 + 1 := by
  decide

end LoadTest
